import Mathlib

/-!
Verification of the crawler core (scraper.py, CrawlerStats.py, crawler/worker.py).

The Python source is shallowly embedded: pure functions become Lean functions,
the stateful trap detector / robots cache / statistics aggregator become
explicit state passing, and external collaborators (the fetch layer,
BeautifulSoup, the Simhash library) become explicit function parameters or
oracles.  Byte strings are modelled as Lean `String`s (the crawler only ever
measures their length or decodes them), and Python `set`/`dict`/`Counter`
are modelled as association lists with insert-if-absent semantics.
-/

set_option linter.unusedVariables false

/-! ## String primitives

Structural-recursion implementations of the Python string operations the
source uses (`startswith`, `endswith`, `lower`, `split`, `in`), so that
every definition in this file evaluates by kernel reduction. -/

/-- Is `needle` a prefix of `hay`? -/
def isSubAt : List Char → List Char → Bool
  | [], _ => true
  | _ :: _, [] => false
  | n :: ns, h :: hs => n == h && isSubAt ns hs

/-- Does `needle` occur as a contiguous substring of `hay`?
(Python `in` on strings.) -/
def containsSub (needle : List Char) : List Char → Bool
  | [] => needle.isEmpty
  | h :: hs => isSubAt needle (h :: hs) || containsSub needle hs

/-- Python `str.startswith`. -/
def strStartsWith (s t : String) : Bool := isSubAt t.data s.data

/-- Python `str.endswith`. -/
def strEndsWith (s t : String) : Bool := isSubAt t.data.reverse s.data.reverse

/-- Python `str.lower` (ASCII). -/
def strLower (s : String) : String := String.mk (s.data.map Char.toLower)

/-- Python `str.split(sep)` for a one-character separator: split at every
occurrence, keeping empty pieces (`"".split(sep)` is `[""]`). -/
def splitOnChar (sep : Char) : List Char → List (List Char)
  | [] => [[]]
  | c :: rest =>
    if c == sep then [] :: splitOnChar sep rest
    else
      match splitOnChar sep rest with
      | [] => [[c]]
      | h :: t => (c :: h) :: t

/-- Python `str.split(sep)` on strings. -/
def pySplit (s : String) (sep : Char) : List String :=
  (splitOnChar sep s.data).map String.mk

/-- Python `str.split()` with no separator: the maximal non-whitespace
runs (`cur` is the current run, reversed). -/
def wsSplitAux : List Char → List Char → List String
  | cur, [] => if cur.isEmpty then [] else [String.mk cur.reverse]
  | cur, c :: rest =>
    if c.isWhitespace then
      if cur.isEmpty then wsSplitAux [] rest
      else String.mk cur.reverse :: wsSplitAux [] rest
    else wsSplitAux (c :: cur) rest

/-! ## A model of `urllib.parse`

`scraper.py` and `CrawlerStats.py` both rely on CPython `urlparse`,
`urlunparse` and `urldefrag`.  The definitions below follow CPython's
`urllib/parse.py` (`urlsplit`, `_splitparams`, `urlunsplit`) restricted to
`str` inputs without embedded control characters. -/

/-- Split a character list at the first occurrence of `d`.
Returns the part before, and `some` of the part after when `d` occurs. -/
def splitFirst : List Char → Char → List Char × Option (List Char)
  | [], _ => ([], none)
  | c :: cs, d =>
    if c = d then ([], some cs)
    else
      let p := splitFirst cs d
      (c :: p.1, p.2)

/-- Characters allowed in a URL scheme after the leading letter
(CPython `scheme_chars`). -/
def isSchemeChar (c : Char) : Bool :=
  c.isAlpha || c.isDigit || c == '+' || c == '-' || c == '.'

/-- Take characters until one of `stop` is hit (CPython `_splitnetloc`):
returns the prefix and the remainder (which starts with the stop character). -/
def takeUntilAny (stop : List Char) : List Char → List Char × List Char
  | [] => ([], [])
  | c :: cs =>
    if stop.contains c then ([], c :: cs)
    else
      let p := takeUntilAny stop cs
      (c :: p.1, p.2)

/-- The result of CPython `urlparse`. -/
structure ParseResult where
  scheme : String
  netloc : String
  path : String
  params : String
  query : String
  fragment : String
deriving Repr, DecidableEq

/-- CPython `urlsplit` on a character list: scheme, then `//netloc`,
then fragment, then query, exactly in that order. -/
def urlsplitList (url : List Char) : ParseResult :=
  -- scheme: a ':' preceded by a nonempty run of scheme characters whose
  -- first character is a letter
  let schemeRest : List Char × List Char :=
    match splitFirst url ':' with
    | (before, some after) =>
      if !before.isEmpty && (before.headD ' ').isAlpha && before.all isSchemeChar then
        (before.map Char.toLower, after)
      else
        ([], url)
    | (_, none) => ([], url)
  let scheme := schemeRest.1
  let rest0 := schemeRest.2
  -- netloc: present when the remainder starts with "//"
  let netlocRest : List Char × List Char :=
    match rest0 with
    | '/' :: '/' :: tail => takeUntilAny ['/', '?', '#'] tail
    | _ => ([], rest0)
  let netloc := netlocRest.1
  let rest1 := netlocRest.2
  -- fragment: everything after the first '#'
  let pqFrag :=
    match splitFirst rest1 '#' with
    | (before, some after) => (before, after)
    | (before, none) => (before, [])
  let frag := pqFrag.2
  -- query: everything after the first '?'
  let pathQuery :=
    match splitFirst pqFrag.1 '?' with
    | (before, some after) => (before, after)
    | (before, none) => (before, [])
  { scheme := String.mk scheme
    netloc := String.mk netloc
    path := String.mk pathQuery.1
    params := ""
    query := String.mk pathQuery.2
    fragment := String.mk frag }

/-- CPython `_splitparams`: split `;params` off the last path segment. -/
def splitParams (path : List Char) : List Char × List Char :=
  if path.contains '/' then
    -- search for ';' only in the final segment (after the last '/')
    let revSplit := splitFirst path.reverse '/'
    match revSplit with
    | (lastRev, some initRev) =>
      let lastSeg := lastRev.reverse
      match splitFirst lastSeg ';' with
      | (before, some after) => (initRev.reverse ++ '/' :: before, after)
      | (_, none) => (path, [])
    | (_, none) => (path, [])
  else
    match splitFirst path ';' with
    | (before, some after) => (before, after)
    | (_, none) => (path, [])

/-- CPython `uses_params`: schemes for which `urlparse` performs the
params split. -/
def usesParams : List String :=
  ["", "ftp", "hdl", "prospero", "http", "imap", "https", "shttp", "rtsp",
   "rtspu", "sip", "sips", "mms", "sftp", "tel"]

/-- CPython `urlparse`: `urlsplit` plus the params split (the latter only
for schemes in `uses_params`). -/
def urlparse (url : String) : ParseResult :=
  let r := urlsplitList url.data
  if usesParams.contains r.scheme && r.path.data.contains ';' then
    let pp := splitParams r.path.data
    { r with path := String.mk pp.1, params := String.mk pp.2 }
  else
    r

/-- CPython `urlunsplit` (fragment handling included). -/
def urlunsplit (scheme netloc url query fragment : String) : String :=
  let url1 :=
    if !netloc.isEmpty || (!url.isEmpty && strStartsWith url "//") then
      let u := if !url.isEmpty && !strStartsWith url "/" then "/" ++ url else url
      "//" ++ netloc ++ u
    else
      url
  let url2 := if !scheme.isEmpty then scheme ++ ":" ++ url1 else url1
  let url3 := if !query.isEmpty then url2 ++ "?" ++ query else url2
  if !fragment.isEmpty then url3 ++ "#" ++ fragment else url3

/-- CPython `urlunparse`: reattach params, then `urlunsplit`. -/
def urlunparse (r : ParseResult) : String :=
  let u := if !r.params.isEmpty then r.path ++ ";" ++ r.params else r.path
  urlunsplit r.scheme r.netloc u r.query r.fragment

/-- CPython `urldefrag`: when a '#' occurs, reassemble the URL without its
fragment; otherwise return the URL unchanged. -/
def urldefrag (url : String) : String :=
  if url.data.contains '#' then
    urlunparse { urlparse url with fragment := "" }
  else
    url

/-! ## Trap detector (scraper.py, class TrapDetector)

Python sets are modelled as lists with insert-if-absent updates, and
`defaultdict(int)` counters as association lists. -/

/-- Insert-if-absent: the model of `set.add` on a Python set. -/
def setAdd (l : List String) (x : String) : List String :=
  if x ∈ l then l else x :: l

/-- `TrapDetector.__init__` state: `url_pattern_count` and
`SUSPICIOUS_PATHS` are maintained in the source but never consulted;
`content_hashes` stores Simhash values; `visited_urls` stores processed
URLs. -/
structure TrapDetector where
  url_pattern_count : List (String × Nat) := []
  content_hashes : List Nat := []
  suspicious_paths : List (String × Nat) := []
  visited_urls : List String := []
deriving Repr

/-- `re.search(r'/\d{5,}', path)` as a boolean: some '/' in the path is
immediately followed by at least five (ASCII) digits. -/
def hasSlashDigitRun : List Char → Bool
  | [] => false
  | c :: rest =>
    (c == '/' && (rest.take 5).length == 5 && (rest.take 5).all Char.isDigit)
      || hasSlashDigitRun rest

/-- Does `\d{4} sep \d{2}` (sep being '-' or '/') match at the head of the
list?  The optional `sep \d{2}` tail of the source regex never affects
matchability. -/
def dateAtHead : List Char → Bool
  | a :: b :: c :: d :: s :: e :: f :: _ =>
    a.isDigit && b.isDigit && c.isDigit && d.isDigit
      && (s == '-' || s == '/') && e.isDigit && f.isDigit
  | _ => false

/-- The source's `date_pattern` regex search (`\d{4}`, a '-' or '/'
separator, `\d{2}`, optionally another separator and `\d{2}`) as a
boolean. -/
def hasDatePattern : List Char → Bool
  | [] => false
  | c :: rest => dateAtHead (c :: rest) || hasDatePattern rest

/-- `TrapDetector.is_event_date_trap`: the path begins with `/event/` or
`/events/`, is not the bare root, and contains a date-like pattern. -/
def is_event_date_trap (url : String) : Bool :=
  let path := (urlparse url).path
  if strStartsWith path "/event/" || strStartsWith path "/events/" then
    if ["/event", "/event/", "/events", "/events/"].contains path then
      false
    else
      hasDatePattern path.data
  else
    false

/-- The excessive-path-depth test of `is_trap_url` (line 36):
`len(path.split('/')) > 10`, boundary empties included. -/
def path_depth_exceeded (path : String) : Bool :=
  (pySplit path '/').length > 10

/-- The repeated-segment test of `is_trap_url` (lines 44 to 45): some
non-empty path segment occurs twice
(`len(path_segments) != len(set(path_segments))`). -/
def has_repeated_segments (path : String) : Bool :=
  let path_segments := (pySplit path '/').filter (fun s => !s.isEmpty)
  path_segments.length != path_segments.dedup.length

/-- `TrapDetector.is_trap_url`: excessive path depth
(`len(path.split('/')) > 10`), a run of five or more digits after a '/',
a repeated non-empty path segment, or an event page with a date pattern. -/
def is_trap_url (url : String) : Bool :=
  let path := (urlparse url).path
  if path_depth_exceeded path then
    true
  else if hasSlashDigitRun path.data then
    true
  else if has_repeated_segments path then
    true
  else if is_event_date_trap url then
    true
  else
    false

/-- `TrapDetector.is_duplicate_url`: membership test on `visited_urls`,
inserting the URL (and answering `false`) when it was not seen before.
No normalization happens here: comparison is exact string equality. -/
def TrapDetector.is_duplicate_url (td : TrapDetector) (url : String) :
    Bool × TrapDetector :=
  if url ∈ td.visited_urls then
    (true, td)
  else
    (false, { td with visited_urls := url :: td.visited_urls })

/-- The binary digits of `n`, least significant first; `fuel` bounds the
recursion (`fuel = n` is always enough since the argument halves). -/
def bitsAux : Nat → Nat → List Nat
  | 0, _ => []
  | _, 0 => []
  | fuel + 1, n + 1 => (n + 1) % 2 :: bitsAux fuel ((n + 1) / 2)

/-- `bin(n).count("1")`: the number of one bits of `n`. -/
def bit_count (n : Nat) : Nat := (bitsAux n n).sum

/-- The body of `TrapDetector.is_duplicate_content` after the external
Simhash fingerprint has been computed: if a stored hash is within Hamming
distance 5 of `fp`, answer `true`; otherwise store `fp` and answer
`false`. -/
def TrapDetector.is_duplicate_content_fp (td : TrapDetector) (fp : Nat) :
    Bool × TrapDetector :=
  let threshold := 5
  if td.content_hashes.any (fun seen => bit_count (seen ^^^ fp) ≤ threshold) then
    (true, td)
  else
    (false, { td with content_hashes := fp :: td.content_hashes })

/-- `TrapDetector.is_duplicate_content`: BeautifulSoup text extraction and
the Simhash library are external; `simhash` maps the raw page content to
`Simhash(" ".join(soup.stripped_strings)).value`. -/
def TrapDetector.is_duplicate_content (simhash : String → Nat)
    (td : TrapDetector) (content : String) : Bool × TrapDetector :=
  td.is_duplicate_content_fp (simhash content)

/-! ## Statistics aggregator (CrawlerStats.py, class CrawlerStats)

`unique_pages` (a Python set) is a list updated by `setAdd`; `word_count`
(a `Counter`) and `subdomains` (a dict of sets) are association lists. -/

/-- The apostrophe character, used by several stop words. -/
def apos : String := (Char.ofNat 39).toString

/-- Builds a stop word containing an apostrophe. -/
def aposW (a b : String) : String := a ++ apos ++ b

/-- The fixed English stop-word list of `CrawlerStats.initialize`. -/
def stop_words : List String :=
  ["a", "about", "above", "after", "again", "against", "all", "am", "an",
   "and", "any", "are", aposW "aren" "t", "as", "at", "be", "because",
   "been", "before", "being", "below", "between", "both", "but", "by",
   aposW "can" "t", "cannot", "could", aposW "couldn" "t", "did",
   aposW "didn" "t", "do", "does", aposW "doesn" "t", "doing",
   aposW "don" "t", "down", "during", "each", "few", "for", "from",
   "further", "had", aposW "hadn" "t", "has", aposW "hasn" "t", "have",
   aposW "haven" "t", "having", "he", aposW "he" "d", aposW "he" "ll",
   aposW "he" "s", "her", "here", aposW "here" "s", "hers", "herself",
   "him", "himself", "his", "how", aposW "how" "s", "i", aposW "i" "d",
   aposW "i" "ll", aposW "i" "m", aposW "i" "ve", "if", "in", "into",
   "is", aposW "isn" "t", "it", aposW "it" "s", "its", "itself",
   aposW "let" "s", "me", "more", "most", aposW "mustn" "t", "my",
   "myself", "no", "nor", "not", "of", "off", "on", "once", "only", "or",
   "other", "ought", "our", "ours", "ourselves", "out", "over", "own",
   "same", aposW "shan" "t", "she", aposW "she" "d", aposW "she" "ll",
   aposW "she" "s", "should", aposW "shouldn" "t", "so", "some", "such",
   "than", "that", aposW "that" "s", "the", "their", "theirs", "them",
   "themselves", "then", "there", aposW "there" "s", "these", "they",
   aposW "they" "d", aposW "they" "ll", aposW "they" "re",
   aposW "they" "ve", "this", "those", "through", "to", "too", "under",
   "until", "up", "very", "was", aposW "wasn" "t", "we", aposW "we" "d",
   aposW "we" "ll", aposW "we" "re", aposW "we" "ve", "were",
   aposW "weren" "t", "what", aposW "what" "s", "when", aposW "when" "s",
   "where", aposW "where" "s", "which", "while", "who", aposW "who" "s",
   "whom", "why", aposW "why" "s", "with", aposW "won" "t", "would",
   aposW "wouldn" "t", "you", aposW "you" "d", aposW "you" "ll",
   aposW "you" "re", aposW "you" "ve", "your", "yours", "yourself",
   "yourselves"]

/-- The state set up by `CrawlerStats.initialize` (defaults give the
freshly initialized aggregator). -/
structure CrawlerStats where
  unique_pages : List String := []
  longest_page : Option (String × Nat) := none
  word_count : List (String × Nat) := []
  subdomains : List (String × List String) := []
deriving Repr

/-- `CrawlerStats.normalize_url`: remove the fragment by re-assembling the
parse result with an empty fragment. -/
def normalize_url (url : String) : String :=
  urlunparse { urlparse url with fragment := "" }

/-- A model of `BeautifulSoup(content, "html.parser").get_text()` for
simple markup: characters between '<' and '>' are dropped.  It is exact on
tag-free text, which is what `Worker.process_response` passes in. -/
def stripTagsAux : Bool → List Char → List Char
  | _, [] => []
  | true, c :: rest =>
    if c = '>' then stripTagsAux false rest else stripTagsAux true rest
  | false, c :: rest =>
    if c = '<' then stripTagsAux true rest else c :: stripTagsAux false rest

/-- `CrawlerStats.count_words`: extract text, then count the
whitespace-delimited words (Python `str.split()` drops empty pieces). -/
def count_words (content : String) : Nat :=
  (wsSplitAux [] (stripTagsAux false content.data)).length

/-- A word character for the `\b\w+\b` tokenizer regex (ASCII letters,
digits and underscore). -/
def isWordChar (c : Char) : Bool := c.isAlphanum || c == '_'

/-- The maximal runs of word characters of a string, in order: the list of
matches of `re.findall` with the `\b\w+\b` pattern.  `cur` is the current
run, reversed. -/
def wordRunsAux : List Char → List Char → List String
  | cur, [] => if cur.isEmpty then [] else [String.mk cur.reverse]
  | cur, c :: rest =>
    if isWordChar c then wordRunsAux (c :: cur) rest
    else if cur.isEmpty then wordRunsAux [] rest
    else String.mk cur.reverse :: wordRunsAux [] rest

/-- One `Counter` increment for the word `w`. -/
def counterAdd (wc : List (String × Nat)) (w : String) : List (String × Nat) :=
  if wc.any (fun p => p.1 == w) then
    wc.map (fun p => if p.1 == w then (p.1, p.2 + 1) else p)
  else
    wc ++ [(w, 1)]

/-- `CrawlerStats.update_longest_page`: replace `longest_page` when the
current page has strictly more words (or when there was none). -/
def CrawlerStats.update_longest_page (s : CrawlerStats) (url content : String) :
    CrawlerStats :=
  let wc := count_words content
  match s.longest_page with
  | none => { s with longest_page := some (url, wc) }
  | some (u, n) =>
    if wc > n then { s with longest_page := some (url, wc) } else s

/-- `CrawlerStats.tokenize_and_count_words`: lowercase, tokenize on word
boundaries, drop stop words, and bump the counter for the remainder. -/
def CrawlerStats.tokenize_and_count_words (s : CrawlerStats) (content : String) :
    CrawlerStats :=
  let words := wordRunsAux [] (strLower content).data
  let filtered_words := words.filter (fun w => !stop_words.contains w)
  { s with word_count := filtered_words.foldl counterAdd s.word_count }

/-- Add `url` to the set stored under `subdomain`, creating the entry if
needed (`CrawlerStats.update_subdomain`, lines 91 to 93). -/
def subdomainAdd (m : List (String × List String)) (subdomain url : String) :
    List (String × List String) :=
  if m.any (fun p => p.1 == subdomain) then
    m.map (fun p => if p.1 == subdomain then (p.1, setAdd p.2 url) else p)
  else
    m ++ [(subdomain, [url])]

/-- `CrawlerStats.update_subdomain`: for hosts ending in `ics.uci.edu`,
record the URL under the host's first dot-separated label. -/
def CrawlerStats.update_subdomain (s : CrawlerStats) (url : String) :
    CrawlerStats :=
  let domain := (urlparse url).netloc
  if strEndsWith domain "ics.uci.edu" then
    let subdomain := (pySplit domain '.').headD ""
    { s with subdomains := subdomainAdd s.subdomains subdomain url }
  else
    s

/-- `CrawlerStats.update_page`: normalize the URL, add it to
`unique_pages`, and update the three derived statistics. -/
def CrawlerStats.update_page (s : CrawlerStats) (url content : String) :
    CrawlerStats :=
  let nurl := normalize_url url
  let s1 := { s with unique_pages := setAdd s.unique_pages nurl }
  let s2 := s1.update_longest_page nurl content
  let s3 := s2.tokenize_and_count_words content
  s3.update_subdomain nurl

/-- `CrawlerStats.get_unique_page_count`. -/
def CrawlerStats.get_unique_page_count (s : CrawlerStats) : Nat :=
  s.unique_pages.length

/-! ## Link validator (scraper.py, is_valid) with the robots.txt cache

`RobotFileParser.can_fetch("*", url)` of a parsed ruleset is modelled as a
function `String → Bool`; the external `download` of utils.download is an
oracle from the robots URL to one of four outcomes distinguished by the
source's control flow. -/

/-- A parsed robots.txt ruleset: its `can_fetch` for agent `*`. -/
def RuleSet : Type := String → Bool

/-- The `robots_txt_cache` dict: domain to `None` (no policy) or a parsed
ruleset. -/
def RobotsCache : Type := List (String × Option RuleSet)

/-- What the external `download(robots_url, config, timeout=10)` call can
do, as distinguished by is_valid's control flow: raise; return a falsy
response or one with falsy `raw_response`; return content that fails UTF-8
decoding; or return content that decodes and parses to a ruleset. -/
inductive DlOutcome where
  | raiseExc : DlOutcome
  | noResp : DlOutcome
  | badBytes : DlOutcome
  | parsed : RuleSet → DlOutcome

/-- The download oracle: what the fetch layer answers for each URL. -/
def Download : Type := String → DlOutcome

/-- Cache lookup (`domain not in robots_txt_cache`,
`robots_txt_cache.get(domain)`). -/
def cacheLookup (cache : RobotsCache) (domain : String) :
    Option (Option RuleSet) :=
  match cache.find? (fun p => p.1 == domain) with
  | some p => some p.2
  | none => none

/-- The configured allowed domains of is_valid. -/
def allowed_domains : List String :=
  ["ics.uci.edu", "cs.uci.edu", "informatics.uci.edu", "stat.uci.edu"]

/-- The blocked-extension alternation of is_valid's regex, with `jpe?g`
and `tiff?` expanded. -/
def blocked_extensions : List String :=
  ["css", "js", "bmp", "gif", "jpeg", "jpg", "ico", "png", "tiff", "tif",
   "mid", "mp2", "mp3", "mp4", "wav", "avi", "mov", "mpeg", "ram", "m4v",
   "mkv", "ogg", "ogv", "pdf", "ps", "eps", "tex", "ppt", "pptx", "doc",
   "docx", "xls", "xlsx", "names", "data", "dat", "exe", "bz2", "tar",
   "msi", "bin", "7z", "psd", "dmg", "iso", "epub", "dll", "cnf", "tgz",
   "sha1", "thmx", "mso", "arff", "rtf", "jar", "csv", "rm", "smil",
   "wmv", "swf", "wma", "zip", "rar", "gz"]

/-- The `page=\d{4,}` search on the lowercased query: "page=" followed by
at least four digits occurs somewhere. -/
def hasPageTrap : List Char → Bool
  | [] => false
  | c :: rest =>
    (isSubAt ['p', 'a', 'g', 'e', '='] (c :: rest)
      && ((rest.drop 4).take 4).length == 4
      && ((rest.drop 4).take 4).all Char.isDigit)
      || hasPageTrap rest

/-- `url.encode('ascii')` succeeds exactly when every character is below
code point 128. -/
def asciiOk (url : String) : Bool :=
  url.data.all (fun c => c.toNat < 128)

/-- The result of one modelled is_valid call: the boolean answer, the
robots cache afterwards, how many times the fetch layer was invoked, and
whether an unexpected exception was raised and caught inside the call. -/
structure VResult where
  ok : Bool
  cache : RobotsCache
  fetches : Nat
  excCaught : Bool

/-- The robots.txt section of is_valid (lines 232 to 264): fetch-and-cache
on a miss, then consult the cached entry.  A download exception is caught
by the inner handler, which stores `None`; the following use of the
unbound `response` name raises again and the outer robots handler catches
it, after which the function returns True.  A body that fails UTF-8
decoding raises before the cache store, so the cache is left without an
entry for the domain. -/
def robots_check (download : Download) (cache : RobotsCache)
    (scheme domain url : String) : VResult :=
  match cacheLookup cache domain with
  | some entry =>
    -- cached: `if not rp: return True`, then `can_fetch` decides
    (match entry with
     | none => ⟨true, cache, 0, false⟩
     | some rp => ⟨rp url, cache, 0, false⟩)
  | none =>
    -- robots_url = f"{parsed.scheme}://{domain}/robots.txt"
    match download (scheme ++ "://" ++ domain ++ "/robots.txt") with
    | .raiseExc => ⟨true, (domain, none) :: cache, 1, true⟩
    | .noResp => ⟨true, (domain, none) :: cache, 1, false⟩
    | .badBytes => ⟨true, cache, 1, true⟩
    | .parsed rp => ⟨rp url, (domain, some rp) :: cache, 1, false⟩

/-- `is_valid(url, config)`: scheme, allowed-domain suffix, blocked
extensions, ASCII representability, query traps, then the robots.txt
check.  The cache is threaded explicitly; everything before the robots
section performs no fetch and catches no exception. -/
def is_valid (download : Download) (cache : RobotsCache) (url : String) :
    VResult :=
  let parsed := urlparse url
  if !(parsed.scheme == "http" || parsed.scheme == "https") then
    ⟨false, cache, 0, false⟩
  else if !(allowed_domains.any (fun d => strEndsWith parsed.netloc d)) then
    ⟨false, cache, 0, false⟩
  else if blocked_extensions.any
      (fun e => strEndsWith (strLower parsed.path) ("." ++ e)) then
    ⟨false, cache, 0, false⟩
  else if !asciiOk url then
    -- `url.encode('ascii')` raised UnicodeEncodeError: handled, False
    ⟨false, cache, 0, false⟩
  else if !parsed.query.isEmpty && hasPageTrap (strLower parsed.query).data then
    ⟨false, cache, 0, false⟩
  else if !parsed.query.isEmpty
      && containsSub "sessionid".data (strLower parsed.query).data then
    ⟨false, cache, 0, false⟩
  else
    robots_check download cache parsed.scheme parsed.netloc url

/-! ## Page processing pipeline (scraper.py, scraper and
extract_next_links) and the worker loop body (crawler/worker.py)

External collaborators are collected in `Ext`: the Simhash fingerprint of
raw content, BeautifulSoup text extraction (`None` when the parser
raises), BeautifulSoup link discovery, the stdlib `urljoin`, and the fetch
layer used for robots.txt. -/

/-- `resp.raw_response` of the fetch layer's response object: the raw body
as a character string plus the response headers. -/
structure RawResponse where
  content : String
  headers : List (String × String)
deriving Repr

/-- The fetch layer's response object as the pipeline reads it. -/
structure Response where
  url : String
  status : Nat
  raw_response : Option RawResponse
deriving Repr

/-- `headers.get(key, '')`. -/
def headersGet (hs : List (String × String)) (k : String) : String :=
  match hs.find? (fun p => p.1 == k) with
  | some p => p.2
  | none => ""

/-- The external collaborators of the pipeline and the worker. -/
structure Externals where
  simhash : String → Nat
  soupText : String → Option String
  soupLinks : String → List String
  urljoin : String → String → String
  download : Download

/-- The tail of the Content-Type after "text/html;" against
`\s*charset=.*$` ('.' does not match a newline; '$' also matches just
before a single trailing newline). -/
def ctCharsetTail (l : List Char) : Bool :=
  let rest := l.dropWhile Char.isWhitespace
  isSubAt "charset=".data rest &&
    (let tail := rest.drop 8
     tail.all (fun c => c != '\n')
       || (tail.dropLast.all (fun c => c != '\n') && tail.getLast? == some '\n'))

/-- The `re.match` of scraper line 136: the Content-Type is exactly
`text/html`, optionally followed by `;`, whitespace, and a charset
parameter. -/
def ctMatch (ct : String) : Bool :=
  ct == "text/html" || ct == "text/html\n"
    || (strStartsWith ct "text/html;" && ctCharsetTail (ct.data.drop 10))

/-- `extract_next_links`: on a 200 response with content, the
BeautifulSoup-discovered hrefs, each resolved against the page URL and
defragmented.  Absent or empty content produces no links (a parse failure
in the source also produces no links and is folded into `soupLinks`). -/
def extract_next_links (ext : Externals) (url : String) (resp : Response) :
    List String :=
  if resp.status != 200 then
    []
  else
    match resp.raw_response with
    | none => []
    | some raw =>
      if raw.content.isEmpty then []
      else
        (ext.soupLinks raw.content).map
          (fun href => urldefrag (ext.urljoin url href))

/-- The `[link for link in links if is_valid(link, config)]` filter, with
the robots cache threaded through the sequence of is_valid calls. -/
def filter_valid (download : Download) (cache : RobotsCache) :
    List String → List String × RobotsCache
  | [] => ([], cache)
  | l :: ls =>
    let r := is_valid download cache l
    let rest := filter_valid download r.cache ls
    if r.ok then (l :: rest.1, rest.2) else rest

/-- `scraper(url, resp, config)`: redirect resolution, dead-page and
oversize admission checks, content-type check, the three trap-detector
checks, then link extraction and validation.  Returns the valid links and
the updated trap-detector state and robots cache. -/
def scraper (ext : Externals) (td : TrapDetector) (cache : RobotsCache)
    (url : String) (resp : Response) :
    List String × TrapDetector × RobotsCache :=
  let final_url := if resp.url.isEmpty then url else resp.url
  -- dead URL: 200 status but very little content
  if resp.status == 200 &&
      (match resp.raw_response with
       | some raw => raw.content.length < 512
       | none => false) then
    ([], td, cache)
  -- large file (> 2MB)
  else if (match resp.raw_response with
       | some raw => !raw.content.isEmpty
           && raw.content.length > 2 * 1024 * 1024
       | none => false) then
    ([], td, cache)
  else
    let content_type :=
      match resp.raw_response with
      | some raw =>
        if raw.headers.isEmpty then "" else headersGet raw.headers "Content-Type"
      | none => ""
    if !ctMatch content_type then
      ([], td, cache)
    else
      let dup := td.is_duplicate_url final_url
      if dup.1 then
        ([], dup.2, cache)
      else if is_trap_url final_url then
        ([], dup.2, cache)
      else
        match resp.raw_response with
        | none => ([], dup.2, cache)  -- unreachable: the content type matched
        | some raw =>
          let dc := dup.2.is_duplicate_content ext.simhash raw.content
          if dc.1 then
            ([], dc.2, cache)
          else
            let links := extract_next_links ext final_url resp
            let fv := filter_valid ext.download cache links
            (fv.1, dc.2, fv.2)

/-- `Worker.process_response`: when the response has content and
BeautifulSoup succeeds, update the global statistics with the extracted
text; otherwise (no content, or a parser exception) leave them alone. -/
def process_response (ext : Externals) (stats : CrawlerStats) (url : String)
    (resp : Response) : CrawlerStats :=
  match resp.raw_response with
  | none => stats
  | some raw =>
    if raw.content.isEmpty then stats
    else
      match ext.soupText raw.content with
      | some text => stats.update_page url text
      | none => stats

/-- The shared state after one worker-loop iteration. -/
structure WorkerOut where
  stats : CrawlerStats
  td : TrapDetector
  cache : RobotsCache
  links : List String

/-- The body of `Worker.run` for one dequeued URL after download:
`process_response` first (statistics), then `scraper` (pipeline). -/
def worker_step (ext : Externals) (stats : CrawlerStats) (td : TrapDetector)
    (cache : RobotsCache) (url : String) (resp : Response) : WorkerOut :=
  let stats1 := process_response ext stats url resp
  let sc := scraper ext td cache url resp
  ⟨stats1, sc.2.1, sc.2.2, sc.1⟩

/-! ## Interleaving model of concurrent `is_duplicate_url` calls

`Worker` extends `threading.Thread` and every worker shares the single
`TRAP_DETECTOR`; no lock is taken anywhere in the repository.  Under
CPython, the membership test of `is_duplicate_url` (line 99) and the
`set.add` (line 101) are each atomic, but the thread can be preempted
between them.  The machine below runs two threads, each executing one
`is_duplicate_url` call split into exactly those two atomic phases, under
an arbitrary interleaving. -/

/-- Where a thread is inside its `is_duplicate_url` call: about to run the
membership test, about to run the `add`, or returned. -/
inductive Phase where
  | checkSeen : Phase
  | insertUrl : Phase
  | finished : Phase
deriving Repr, DecidableEq

/-- One thread: its phase and, when finished, its return value. -/
structure ThreadState where
  phase : Phase
  ret : Option Bool
deriving Repr, DecidableEq

/-- Two threads sharing `visited` (the detector's `visited_urls`), each
calling `is_duplicate_url` on its own URL. -/
structure RaceState where
  visited : List String
  url0 : String
  url1 : String
  t0 : ThreadState
  t1 : ThreadState
deriving Repr, DecidableEq

/-- One atomic step of a thread: the membership test of line 99 (returning
True when seen), or the add of line 101 followed by returning False. -/
def threadStep (visited : List String) (url : String) (t : ThreadState) :
    List String × ThreadState :=
  match t.phase with
  | .checkSeen =>
    if visited.contains url then (visited, ⟨.finished, some true⟩)
    else (visited, ⟨.insertUrl, t.ret⟩)
  | .insertUrl => (setAdd visited url, ⟨.finished, some false⟩)
  | .finished => (visited, t)

/-- Let thread 0 (`who = false`) or thread 1 (`who = true`) take its next
atomic step. -/
def raceStep (s : RaceState) (who : Bool) : RaceState :=
  if who then
    let r := threadStep s.visited s.url1 s.t1
    { s with visited := r.1, t1 := r.2 }
  else
    let r := threadStep s.visited s.url0 s.t0
    { s with visited := r.1, t0 := r.2 }

/-- Run a schedule (a list of thread choices). -/
def runSchedule (s : RaceState) : List Bool → RaceState
  | [] => s
  | who :: rest => runSchedule (raceStep s who) rest

/-- Both threads about to call `is_duplicate_url url` on a fresh
detector. -/
def raceInit (url : String) : RaceState :=
  ⟨[], url, url, ⟨.checkSeen, none⟩, ⟨.checkSeen, none⟩⟩

/-! ## Specification-side definitions

These follow the wording of the specification claims (not the source) and
are compared against the source-translated definitions above. -/

/-- Modelled from the spec claim about is_valid domains: the host is
exactly an allowed domain, or a subdomain of one at a label boundary. -/
def spec_host_allowed (host : String) : Bool :=
  allowed_domains.any (fun d => host == d || strEndsWith host ("." ++ d))

/-- Modelled from the spec claim about path depth: the number of non-empty
path segments. -/
def spec_segment_count (path : String) : Nat :=
  ((pySplit path '/').filter (fun s => !s.isEmpty)).length

/-- Five consecutive digits at the head of the list? -/
def digitsAtHead : List Char → Bool
  | a :: b :: c :: d :: e :: _ =>
    a.isDigit && b.isDigit && c.isDigit && d.isDigit && e.isDigit
  | _ => false

/-- Modelled from the spec claim about digit runs: the path contains a run
of five or more consecutive digits, wherever it occurs. -/
def spec_digit_run : List Char → Bool
  | [] => false
  | c :: rest => digitsAtHead (c :: rest) || spec_digit_run rest

/-! ## Claims -/

/-- External collaborators used in the concrete worker-step examples:
text extraction is the identity, no links are discovered, robots.txt is
unavailable. -/
def idExt : Externals where
  simhash := fun _ => 0
  soupText := fun s => some s
  soupLinks := fun _ => []
  urljoin := fun _ href => href
  download := fun _ => .noResp

/-- A downloaded page with status 200 and a 2-byte body: a "dead page"
(body under 512 bytes) that the pipeline rejects. -/
def deadResp : Response where
  url := ""
  status := 200
  raw_response := some { content := "hi", headers := [("Content-Type", "text/html")] }

/-- C1: the claim says a page the pipeline rejects causes no statistics
mutation.  Counterexample: a dead page (status 200, body under 512 bytes)
is rejected by `scraper`, yet `worker_step` has already run
`process_response`, which records the page: the unique-page count grows
from 0 to 1. -/
theorem C1_counterexample :
    (scraper idExt {} [] "http://www.ics.uci.edu/page" deadResp).1 = [] ∧
    deadResp.status = 200 ∧
    (match deadResp.raw_response with
     | some raw => raw.content.length
     | none => 512) < 512 ∧
    CrawlerStats.get_unique_page_count {} = 0 ∧
    (worker_step idExt {} {} [] "http://www.ics.uci.edu/page"
      deadResp).stats.get_unique_page_count = 1 := by
  refine ⟨rfl, rfl, by decide, rfl, by decide⟩

/-- C1 (amended): the statistics aggregator is updated for every
downloaded response that has a non-empty body and parses, before and
independently of the pipeline's accept/reject decision; only a missing or
empty body (or a parser exception) skips the update. -/
theorem C1_stats_updated_regardless_of_pipeline (ext : Externals)
    (stats : CrawlerStats) (td : TrapDetector) (cache : RobotsCache)
    (url : String) (resp : Response) (raw : RawResponse) (text : String)
    (hraw : resp.raw_response = some raw)
    (hne : raw.content.isEmpty = false)
    (htext : ext.soupText raw.content = some text) :
    (worker_step ext stats td cache url resp).stats =
      stats.update_page url text := by
  unfold worker_step process_response
  rw [hraw]
  simp [hne, htext]

/-- Witness for C1: the dead page of the counterexample has a non-empty
body, so the statistics update is exactly `update_page`. -/
theorem C1_witness :
    (worker_step idExt {} {} [] "http://www.ics.uci.edu/page"
      deadResp).stats =
      CrawlerStats.update_page {} "http://www.ics.uci.edu/page" "hi" :=
  C1_stats_updated_regardless_of_pipeline idExt {} {} []
    "http://www.ics.uci.edu/page" deadResp _ "hi" rfl rfl rfl

/-- C2: the claim says that after a URL is seen, a later call with the
same URL but a changed fragment returns true.  Counterexample: the two
URLs below differ only by fragment (their parses agree once the fragment
is cleared), yet `is_duplicate_url` answers false for both, because the
comparison is exact string equality with no normalization. -/
theorem C2_counterexample :
    { urlparse "http://a/b#x" with fragment := "" } =
      { urlparse "http://a/b#y" with fragment := "" } ∧
    (TrapDetector.is_duplicate_url {} "http://a/b#x").1 = false ∧
    ((TrapDetector.is_duplicate_url {} "http://a/b#x").2.is_duplicate_url
      "http://a/b#y").1 = false := by
  refine ⟨by decide, rfl, rfl⟩

/-- C2 (amended): `is_duplicate_url` is first-call-false /
subsequent-calls-true only for the exact same URL string: a URL not in
`visited_urls` gets false, and immediately repeating the identical string
gets true.  A fragment-changed variant is a different string and is
treated as unseen. -/
theorem C2_exact_string_dedup (td : TrapDetector) (url : String)
    (h : url ∉ td.visited_urls) :
    (td.is_duplicate_url url).1 = false ∧
    ((td.is_duplicate_url url).2.is_duplicate_url url).1 = true := by
  unfold TrapDetector.is_duplicate_url
  simp [h]

/-- Witness for C2: a fresh detector and a concrete URL. -/
theorem C2_witness :
    (TrapDetector.is_duplicate_url {} "http://a/b#x").1 = false ∧
    ((TrapDetector.is_duplicate_url {} "http://a/b#x").2.is_duplicate_url
      "http://a/b#x").1 = true :=
  C2_exact_string_dedup {} "http://a/b#x" (by decide)

/-- C3: the claim says accepted hosts respect a label boundary, so
`pics.uci.edu` is rejected.  Counterexample: the domain test is a plain
`str.endswith`, so `http://pics.uci.edu/x` is accepted (robots.txt being
unreachable) although its host is neither an allowed domain nor a
dot-separated subdomain of one. -/
theorem C3_counterexample :
    (is_valid (fun _ => .noResp) [] "http://pics.uci.edu/x").ok = true ∧
    spec_host_allowed (urlparse "http://pics.uci.edu/x").netloc = false := by
  exact ⟨rfl, by decide⟩

/-- C3 (amended): every URL accepted by is_valid has a host that ends
with one of the allowed domains as a plain string suffix — not
necessarily at a label boundary. -/
theorem C3_suffix_match_only (download : Download) (cache : RobotsCache)
    (url : String) (h : (is_valid download cache url).ok = true) :
    allowed_domains.any (fun d => strEndsWith (urlparse url).netloc d) = true := by
  simp only [is_valid] at h
  split at h
  · exact Bool.noConfusion h
  · split at h
    · exact Bool.noConfusion h
    · rename_i hdom
      simpa using hdom

/-- Witness for C3: a URL inside the allowed domains that is accepted
when its robots.txt is unreachable. -/
theorem C3_witness :
    allowed_domains.any
      (fun d =>
        strEndsWith (urlparse "http://www.ics.uci.edu/people?id=5").netloc d) =
      true :=
  C3_suffix_match_only (fun _ => .noResp) [] "http://www.ics.uci.edu/people?id=5" rfl

/-- C4: the claim says the depth rule does not fire for paths of 10 or
fewer segments.  Counterexample: a path with exactly 10 non-empty
segments is classified a trap, and none of the other three rules fires on
it, so the firing rule is the depth rule (the source counts
`len(path.split('/'))`, which includes the empty piece before the leading
slash). -/
theorem C4_counterexample :
    spec_segment_count "/a/b/c/d/e/f/g/h/i/j" = 10 ∧
    is_trap_url "/a/b/c/d/e/f/g/h/i/j" = true ∧
    hasSlashDigitRun ("/a/b/c/d/e/f/g/h/i/j").data = false ∧
    has_repeated_segments "/a/b/c/d/e/f/g/h/i/j" = false ∧
    is_event_date_trap "/a/b/c/d/e/f/g/h/i/j" = false := by
  refine ⟨by decide, by decide, by decide, by decide, by decide⟩

/-- C4 (amended): the depth rule fires exactly when
`len(path.split('/'))` — boundary empties included — exceeds 10; for a
path with a leading slash this already happens at 10 non-empty segments.
Whenever that count exceeds 10 the URL is a trap. -/
theorem C4_depth_rule (url : String)
    (h : (pySplit (urlparse url).path '/').length > 10) :
    is_trap_url url = true := by
  simp [is_trap_url, path_depth_exceeded, h]

/-- Witness for C4: the claim's own examples — the 11-segment path is a
trap, `/a/b/c` is not. -/
theorem C4_witness :
    is_trap_url "/a/b/c/d/e/f/g/h/i/j/k" = true ∧
    is_trap_url "/a/b/c" = false :=
  ⟨C4_depth_rule "/a/b/c/d/e/f/g/h/i/j/k" (by decide), by decide⟩

/-- C5: the claim says a run of 5 or more digits anywhere in the path
fires the digit rule.  Counterexample: `/pagex12345` contains such a run,
but the source regex demands the run immediately after a '/', so the URL
is not classified a trap. -/
theorem C5_counterexample :
    spec_digit_run ("/pagex12345").data = true ∧
    is_trap_url "/pagex12345" = false := by
  refine ⟨by decide, by decide⟩

/-- C5 (amended): the digit rule fires exactly for runs of five or more
digits that immediately follow a '/'; whenever the path has such a run
the URL is a trap. -/
theorem C5_slash_digit_rule (url : String)
    (h : hasSlashDigitRun (urlparse url).path.data = true) :
    is_trap_url url = true := by
  simp [is_trap_url, h]

/-- Witness for C5: the claim's own examples — `/page/12345` is a trap,
`/page/1234` is not. -/
theorem C5_witness :
    is_trap_url "/page/12345" = true ∧ is_trap_url "/page/1234" = false :=
  ⟨C5_slash_digit_rule "/page/12345" (by decide), by decide⟩

/-- C6: the claim says robots.txt is fetched at most once per domain per
process.  Counterexample: when the downloaded robots.txt body fails UTF-8
decoding, the exception skips the cache store, so the domain stays
uncached and the next is_valid call for it fetches again: two calls, two
fetches. -/
theorem C6_counterexample :
    (is_valid (fun _ => .badBytes) [] "http://ics.uci.edu/").fetches = 1 ∧
    (is_valid (fun _ => .badBytes) [] "http://ics.uci.edu/").cache = [] ∧
    (is_valid (fun _ => .badBytes)
      ((is_valid (fun _ => .badBytes) [] "http://ics.uci.edu/").cache)
      "http://ics.uci.edu/").fetches = 1 :=
  ⟨rfl, rfl, rfl⟩

/-- The robots section with a cache hit performs no fetch and leaves the
cache unchanged. -/
theorem robots_check_hit (download : Download) (cache : RobotsCache)
    (scheme domain url : String) (entry : Option RuleSet)
    (hentry : cacheLookup cache domain = some entry) :
    (robots_check download cache scheme domain url).fetches = 0 ∧
    (robots_check download cache scheme domain url).cache = cache := by
  unfold robots_check
  rw [hentry]
  cases entry
  · exact ⟨rfl, rfl⟩
  · exact ⟨rfl, rfl⟩

/-- C6 (amended): once a cache entry — a parsed ruleset or the null "no
policy" marker — is stored for a domain, later is_valid calls for that
domain never invoke the fetch layer and leave the cache unchanged; but a
fetch whose body fails to decode stores no entry, so the at-most-one-fetch
bound does not hold in that case. -/
theorem C6_cached_domain_no_refetch (download : Download) (cache : RobotsCache)
    (url : String)
    (h : ∃ entry, cacheLookup cache (urlparse url).netloc = some entry) :
    (is_valid download cache url).fetches = 0 ∧
    (is_valid download cache url).cache = cache := by
  obtain ⟨entry, hentry⟩ := h
  constructor
  · simp only [is_valid]
    repeat' split
    all_goals first
      | rfl
      | exact (robots_check_hit download cache (urlparse url).scheme
          (urlparse url).netloc url entry hentry).1
  · simp only [is_valid]
    repeat' split
    all_goals first
      | rfl
      | exact (robots_check_hit download cache (urlparse url).scheme
          (urlparse url).netloc url entry hentry).2

/-- Witness for C6: a domain already cached with the null marker is not
re-fetched even by a download oracle that would raise. -/
theorem C6_witness :
    (is_valid (fun _ => .raiseExc) [("www.ics.uci.edu", none)]
      "http://www.ics.uci.edu/").fetches = 0 ∧
    (is_valid (fun _ => .raiseExc) [("www.ics.uci.edu", none)]
      "http://www.ics.uci.edu/").cache = [("www.ics.uci.edu", none)] :=
  C6_cached_domain_no_refetch (fun _ => .raiseExc) [("www.ics.uci.edu", none)]
    "http://www.ics.uci.edu/" ⟨none, rfl⟩

/-- C7: the claim says any unexpected failure during validation makes the
call return false.  Counterexample: a robots.txt body that fails UTF-8
decoding raises inside validation, the exception is caught — and the call
returns true, not false. -/
theorem C7_counterexample :
    (is_valid (fun _ => .badBytes) [] "http://www.cs.uci.edu/index").excCaught =
      true ∧
    (is_valid (fun _ => .badBytes) [] "http://www.cs.uci.edu/index").ok = true :=
  ⟨rfl, rfl⟩

/-- An exception caught inside the robots section always leads to the
answer true (the permissive default). -/
theorem robots_check_exc_ok (download : Download) (cache : RobotsCache)
    (scheme domain url : String) :
    (robots_check download cache scheme domain url).excCaught = true →
    (robots_check download cache scheme domain url).ok = true := by
  unfold robots_check
  split
  · split <;> exact fun hh => Bool.noConfusion hh
  · split
    · exact fun _ => rfl
    · exact fun hh => Bool.noConfusion hh
    · exact fun _ => rfl
    · exact fun hh => Bool.noConfusion hh

/-- C7 (amended): is_valid never raises past its boundary, and it is
total; but the failures it catches split in two: the non-ASCII encode
error (and every pre-robots rejection) yields false, while an unexpected
failure inside the robots section — download error or body decode error —
is swallowed and the call yields true. -/
theorem C7_exceptions_swallowed (download : Download) (cache : RobotsCache)
    (url : String) :
    ((is_valid download cache url).excCaught = true →
      (is_valid download cache url).ok = true) ∧
    (asciiOk url = false → (is_valid download cache url).ok = false) := by
  constructor
  · simp only [is_valid]
    repeat' split
    any_goals exact fun hh => Bool.noConfusion hh
    exact robots_check_exc_ok download cache (urlparse url).scheme
      (urlparse url).netloc url
  · intro h
    simp [is_valid, h, apply_ite VResult.ok]

/-- Witness for C7: a download that raises is swallowed (answer true);
a non-ASCII URL is rejected (answer false). -/
theorem C7_witness :
    (is_valid (fun _ => .raiseExc) [] "http://stat.uci.edu/a").ok = true ∧
    (is_valid (fun _ => .noResp) [] "http://stat.uci.edu/ä").ok = false :=
  ⟨(C7_exceptions_swallowed (fun _ => .raiseExc) [] "http://stat.uci.edu/a").1 rfl,
   (C7_exceptions_swallowed (fun _ => .noResp) [] "http://stat.uci.edu/ä").2 rfl⟩

/-- `update_longest_page` leaves `unique_pages` unchanged. -/
theorem update_longest_page_unique_pages (s : CrawlerStats) (u c : String) :
    (s.update_longest_page u c).unique_pages = s.unique_pages := by
  unfold CrawlerStats.update_longest_page
  split
  · rfl
  · dsimp only
    split <;> rfl

/-- `tokenize_and_count_words` leaves `unique_pages` unchanged. -/
theorem tokenize_unique_pages (s : CrawlerStats) (c : String) :
    (s.tokenize_and_count_words c).unique_pages = s.unique_pages := rfl

/-- `update_subdomain` leaves `unique_pages` unchanged. -/
theorem update_subdomain_unique_pages (s : CrawlerStats) (u : String) :
    (s.update_subdomain u).unique_pages = s.unique_pages := by
  unfold CrawlerStats.update_subdomain
  dsimp only
  split <;> rfl

/-- `update_page` changes `unique_pages` exactly by inserting the
normalized URL if absent. -/
theorem update_page_unique_pages (s : CrawlerStats) (u c : String) :
    (s.update_page u c).unique_pages = setAdd s.unique_pages (normalize_url u) := by
  simp only [CrawlerStats.update_page, update_subdomain_unique_pages,
    tokenize_unique_pages, update_longest_page_unique_pages]

/-- The inserted element is a member afterwards. -/
theorem setAdd_mem (l : List String) (x : String) : x ∈ setAdd l x := by
  unfold setAdd
  split
  · assumption
  · exact List.mem_cons_self _ _

/-- Inserting a member changes nothing. -/
theorem setAdd_of_mem (l : List String) (x : String) (h : x ∈ l) :
    setAdd l x = l := if_pos h

/-- C8: `update_page` has set semantics on `unique_pages`: recording a
URL that normalizes like an already-recorded one (equal up to fragment)
does not change `get_unique_page_count`. -/
theorem C8_update_page_idempotent_unique (s : CrawlerStats)
    (u1 u2 c1 c2 : String) (h : normalize_url u1 = normalize_url u2) :
    ((s.update_page u1 c1).update_page u2 c2).get_unique_page_count =
      (s.update_page u1 c1).get_unique_page_count := by
  have hmem : normalize_url u2 ∈ (s.update_page u1 c1).unique_pages := by
    rw [update_page_unique_pages, ← h]
    exact setAdd_mem _ _
  unfold CrawlerStats.get_unique_page_count
  rw [update_page_unique_pages, setAdd_of_mem _ _ hmem]

/-- Witness for C8: two URLs differing only by fragment, recorded twice. -/
theorem C8_witness :
    ((CrawlerStats.update_page {} "http://a/b#1" "tx").update_page
      "http://a/b#2" "ty").get_unique_page_count =
      (CrawlerStats.update_page {} "http://a/b#1" "tx").get_unique_page_count :=
  C8_update_page_idempotent_unique {} "http://a/b#1" "http://a/b#2" "tx" "ty" rfl

/-- C9: the claim says two workers can never both observe "not seen" for
the same URL.  In the source no lock guards the shared `TRAP_DETECTOR`,
so the interleaving check / check / insert / insert is possible, and in
it both threads return False for the same URL; the serialized schedule
check / insert / check / insert gives the claimed False-then-True.  The
spec itself calls the unguarded check-and-insert "a correctness bug
present in naive ports", so the code, which takes no lock, is in the
wrong, not the claim. -/
theorem C9_unsynchronized_race :
    (runSchedule (raceInit "http://www.ics.uci.edu/")
      [false, true, false, true]).t0.ret = some false ∧
    (runSchedule (raceInit "http://www.ics.uci.edu/")
      [false, true, false, true]).t1.ret = some false ∧
    (runSchedule (raceInit "http://www.ics.uci.edu/")
      [false, false, true, true]).t0.ret = some false ∧
    (runSchedule (raceInit "http://www.ics.uci.edu/")
      [false, false, true, true]).t1.ret = some true :=
  ⟨rfl, rfl, rfl, rfl⟩

/-- C10: `is_trap_url` depends only on the parsed path: two URLs with
equal parsed paths are classified identically, whatever their scheme,
host, query or fragment. -/
theorem C10_trap_depends_only_on_path (u v : String)
    (h : (urlparse u).path = (urlparse v).path) :
    is_trap_url u = is_trap_url v := by
  simp only [is_trap_url, is_event_date_trap, h]

/-- Witness for C10: same path `/x/y` under different scheme, host,
query and fragment. -/
theorem C10_witness :
    is_trap_url "http://a.com/x/y?q=1" = is_trap_url "https://b.org/x/y#f" :=
  C10_trap_depends_only_on_path "http://a.com/x/y?q=1" "https://b.org/x/y#f" rfl
